import Mathlib

/-!
Shallow embedding of the constrained password generation engine of
`src/tools/password_generator.rs` (repository Utilix).

Modelling conventions:
* `String` fields holding passwords are modelled as `List Char`; the
  `HashSet<char>` of similar characters is modelled as a `List Char`
  (only membership is ever used).
* The random number generator `thread_rng` is modelled as a stream
  `d : Nat → Nat` together with a cursor `k`; the Rust call
  `rng.gen_range(0..charset.len())` becomes `d k % charset.length`,
  which ranges over exactly the same values.
* The unbounded `while` rejection loops of the source are modelled with
  an explicit `fuel` bound on the number of re-draws; a result of `none`
  means the source loop has not produced a value within `fuel` re-draws
  (for any property quantified over all `fuel`, `none` everywhere means
  the source loop diverges).
* Crucially, in the source the whole password is produced by
  `self.generated_password = (0..self.length).map(|_| ...).collect()`;
  inside the closure `self.generated_password` still holds the *previous*
  stored password (the assignment happens only after `collect()`
  finishes).  The embedding therefore passes the previous password
  (`old`) unchanged to every position's constraint checks, exactly as the
  compiled Rust does.
-/

namespace Utilix

/-- The `PasswordGenerator` struct of the source, field for field. -/
structure PasswordGenerator where
  length : Nat
  use_uppercase : Bool
  use_lowercase : Bool
  use_numbers : Bool
  use_symbols : Bool
  use_similar_characters : Bool
  use_duplicate_characters : Bool
  use_sequential_characters : Bool
  similar_characters : List Char
  generated_password : List Char
  quantity : Nat
  tools_export_message : Option String
  deriving Repr, DecidableEq

/-- The uppercase class string of the source: `"ABCDEFGHIJKLMNPQRSTUVWXYZ"`. -/
def uppercaseChars : List Char := "ABCDEFGHIJKLMNPQRSTUVWXYZ".toList

/-- The lowercase class string of the source: `"abcdefghjkmnpqrstuvwxyz"`. -/
def lowercaseChars : List Char := "abcdefghjkmnpqrstuvwxyz".toList

/-- The numbers class string of the source: `"23456789"`. -/
def numberChars : List Char := "23456789".toList

/-- The symbols class string of the source: `"!@#$%^&*()_+-=[]\x7b\x7d|;:,.<>?"`. -/
def symbolChars : List Char := "!@#$%^&*()_+-=[]\x7b\x7d|;:,.<>?".toList

/-- `Default for PasswordGenerator` of the source. -/
def PasswordGenerator.defaultPG : PasswordGenerator :=
  { length := 12
    use_uppercase := true
    use_lowercase := true
    use_numbers := true
    use_symbols := true
    use_similar_characters := false
    use_duplicate_characters := false
    use_sequential_characters := false
    similar_characters := "ilLo0O".toList
    generated_password := []
    quantity := 1
    tools_export_message := none }

/-- The charset-building prefix of `generate_password` (lines 65-79 of the
source): start from an empty vector and `extend` it with each enabled
class string, in source order. -/
def buildCharset (pg : PasswordGenerator) : List Char :=
  let cs : List Char := []
  let cs := if pg.use_uppercase then cs ++ uppercaseChars else cs
  let cs := if pg.use_lowercase then cs ++ lowercaseChars else cs
  let cs := if pg.use_numbers then cs ++ numberChars else cs
  let cs := if pg.use_symbols then cs ++ symbolChars else cs
  cs

/-- One draw from the charset: `charset[rng.gen_range(0..charset.len())]`.
The default character is irrelevant: the index is always in range when the
charset is nonempty. -/
def drawChar (cs : List Char) (d : Nat → Nat) (k : Nat) : Char :=
  cs.getD (d k % cs.length) ' '

/-- One of the source's `while p(c) { idx = rng.gen_range(..); c = charset[idx] }`
rejection loops, with an explicit bound `fuel` on the number of re-draws.
Returns the accepted character and the next unused stream index, or `none`
if `fuel` re-draws were not enough (the source loop would still be
running). -/
def rejectLoop (cs : List Char) (p : Char → Bool) (d : Nat → Nat) :
    Nat → Char → Nat → Option (Char × Nat)
  | 0, c, k => if p c then none else some (c, k)
  | fuel + 1, c, k =>
    if p c then rejectLoop cs p d fuel (drawChar cs d k) (k + 1)
    else some (c, k)

/-- Lines 93-99: `if !self.use_duplicate_characters { while
self.generated_password.contains(char_to_add) { redraw } }`, where
`self.generated_password` is the previous stored password `old`. -/
def stageDup (pg : PasswordGenerator) (cs old : List Char) (d : Nat → Nat)
    (fuel : Nat) (c : Char) (k : Nat) : Option (Char × Nat) :=
  if pg.use_duplicate_characters then some (c, k)
  else rejectLoop cs (fun x => old.contains x) d fuel c k

/-- Lines 101-110: the sequential-character rejection loop, run only when
sequential characters are disallowed and the (previous) password is
nonempty; `last_char` is the last character of `old`. -/
def stageSeq (pg : PasswordGenerator) (cs old : List Char) (d : Nat → Nat)
    (fuel : Nat) (c : Char) (k : Nat) : Option (Char × Nat) :=
  if pg.use_sequential_characters || old.isEmpty then some (c, k)
  else
    rejectLoop cs
      (fun x => x.toNat == (old.getLastD ' ').toNat + 1 ||
                x.toNat + 1 == (old.getLastD ' ').toNat)
      d fuel c k

/-- Lines 112-118: `if !self.use_similar_characters { while
self.similar_characters.contains(&char_to_add) { redraw } }`. -/
def stageSim (pg : PasswordGenerator) (cs : List Char) (d : Nat → Nat)
    (fuel : Nat) (c : Char) (k : Nat) : Option (Char × Nat) :=
  if pg.use_similar_characters then some (c, k)
  else rejectLoop cs (fun x => pg.similar_characters.contains x) d fuel c k

/-- The body of the per-position closure of `generate_password`
(lines 88-122): draw an initial character, then run the duplicate,
sequential and similar rejection loops in source order.  `old` is the
value of `self.generated_password` seen by the closure, i.e. the
password stored *before* this generation call. -/
def pickChar (pg : PasswordGenerator) (cs old : List Char) (d : Nat → Nat)
    (fuel k : Nat) : Option (Char × Nat) :=
  (stageDup pg cs old d fuel (drawChar cs d k) (k + 1)).bind fun r1 =>
    (stageSeq pg cs old d fuel r1.1 r1.2).bind fun r2 =>
      stageSim pg cs d fuel r2.1 r2.2

/-- The `(0..self.length).map(..).collect()` pipeline: produce `m`
characters, threading the stream cursor; `old` stays fixed for every
position, exactly as `self.generated_password` does in the source until
the final assignment. -/
def genChars (pg : PasswordGenerator) (cs old : List Char) (d : Nat → Nat)
    (fuel : Nat) : Nat → Nat → Option (List Char × Nat)
  | 0, k => some ([], k)
  | m + 1, k =>
    (pickChar pg cs old d fuel k).bind fun r =>
      (genChars pg cs old d fuel m r.2).bind fun r2 =>
        some (r.1 :: r2.1, r2.2)

/-- `generate_password` (lines 63-126).  Returns the post-state, the
`Result<(), String>`, and the next unused stream index, or `none` when a
rejection loop exceeded `fuel` re-draws. -/
def generate_password (pg : PasswordGenerator) (d : Nat → Nat)
    (fuel k : Nat) : Option (PasswordGenerator × Except String Unit × Nat) :=
  let charset := buildCharset pg
  if charset.isEmpty then
    some (pg, Except.error "Charset is empty", k)
  else
    (genChars pg charset pg.generated_password d fuel pg.length k).map fun r =>
      ({ pg with generated_password := r.1 }, Except.ok (), r.2)

/-- `increase_length` (line 129). -/
def increase_length (pg : PasswordGenerator) : PasswordGenerator :=
  { pg with length := pg.length + 1 }

/-- `decrease_length` (lines 134-138): decrement only when `length > 1`. -/
def decrease_length (pg : PasswordGenerator) : PasswordGenerator :=
  if pg.length > 1 then { pg with length := pg.length - 1 } else pg

/-- `clear_password` (line 141). -/
def clear_password (pg : PasswordGenerator) : PasswordGenerator :=
  { pg with generated_password := [] }

/-- `increase_quantity` (line 194): `saturating_add(1)` on `usize`,
modelled as `Nat` addition. -/
def increase_quantity (pg : PasswordGenerator) : PasswordGenerator :=
  { pg with quantity := pg.quantity + 1 }

/-- `decrease_quantity` (lines 199-201): `saturating_sub(1).max(1)`;
`Nat` subtraction is already saturating. -/
def decrease_quantity (pg : PasswordGenerator) : PasswordGenerator :=
  { pg with quantity := max (pg.quantity - 1) 1 }

/-- The loop body of `generate_multiple_passwords` iterated `n` times:
`clear_password`, `generate_password?`, `push(format!("\x7b\x7d\n", ..))`. -/
def genMultiAux (d : Nat → Nat) (fuel : Nat) :
    Nat → PasswordGenerator → Nat → List (List Char) →
    Option (PasswordGenerator × Nat × Except String (List (List Char)))
  | 0, pg, k, acc => some (pg, k, Except.ok acc)
  | n + 1, pg, k, acc =>
    let pg1 := clear_password pg
    match generate_password pg1 d fuel k with
    | none => none
    | some (pg2, Except.error e, k1) => some (pg2, k1, Except.error e)
    | some (pg2, Except.ok _, k1) =>
      genMultiAux d fuel n pg2 k1 (acc ++ [pg2.generated_password ++ ['\n']])

/-- `generate_multiple_passwords` (lines 181-191). -/
def generate_multiple_passwords (pg : PasswordGenerator) (d : Nat → Nat)
    (fuel k : Nat) :
    Option (PasswordGenerator × Nat × Except String (List (List Char))) :=
  genMultiAux d fuel pg.quantity pg k []

/-- A decidable membership check used to state charset-membership
conclusions without `Prop` binders. -/
def allInCharset (pg pg1 : PasswordGenerator) : Bool :=
  pg1.generated_password.all (buildCharset pg).contains

/-- A decidable check that no similar character occurs in the stored
password. -/
def noSimilarIn (pg pg1 : PasswordGenerator) : Bool :=
  pg1.generated_password.all (fun c => !(pg.similar_characters.contains c))

/-- The Charset Builder as §4.1's words describe it (for the refinement
comparison of claim C8): concatenate the enabled class strings in fixed
order, then, when similar-character exclusion is active (the toggle of the
source is `use_similar_characters = false`), remove every member of the
similar set from the combined alphabet. -/
def charsetSpecC8 (pg : PasswordGenerator) : List Char :=
  let combined :=
    (if pg.use_uppercase then uppercaseChars else []) ++
    (if pg.use_lowercase then lowercaseChars else []) ++
    (if pg.use_numbers then numberChars else []) ++
    (if pg.use_symbols then symbolChars else [])
  if pg.use_similar_characters then combined
  else combined.filter (fun c => !(pg.similar_characters.contains c))

/-- The concatenation clause of §4.1 alone, without any similar-character
removal (the amended form of claim C8). -/
def charsetConcat (pg : PasswordGenerator) : List Char :=
  (if pg.use_uppercase then uppercaseChars else []) ++
  (if pg.use_lowercase then lowercaseChars else []) ++
  (if pg.use_numbers then numberChars else []) ++
  (if pg.use_symbols then symbolChars else [])

/-! ## Concrete states and draw streams used by the analyses -/

/-- The constant-zero draw stream. -/
def dZero : Nat → Nat := fun _ => 0

/-- The identity draw stream: position `k` draws index `k`. -/
def dId : Nat → Nat := fun k => k

/-- Default settings with `length = 2` (reachable from the defaults by ten
`decrease_length` presses). -/
def pgLen2 : PasswordGenerator := { PasswordGenerator.defaultPG with length := 2 }

/-- Default settings with every character-class toggle disabled. -/
def pgAllOff : PasswordGenerator :=
  { PasswordGenerator.defaultPG with
    use_uppercase := false
    use_lowercase := false
    use_numbers := false
    use_symbols := false }

/-- The §8 scenario of claim C1: only numbers enabled, `length = 20`,
duplicates disallowed, with the previously stored password containing all
eight usable digits (e.g. after a prior numbers-only generation). -/
def pgC1 : PasswordGenerator :=
  { PasswordGenerator.defaultPG with
    use_uppercase := false
    use_lowercase := false
    use_symbols := false
    length := 20
    generated_password := numberChars }

/-- Default settings with `length = 2` and `quantity = 1`, the batch
failing input of claim C7. -/
def pgBatch : PasswordGenerator :=
  { PasswordGenerator.defaultPG with length := 2, quantity := 1 }

/-- The successful output state of `generate_password` on the default
settings under the constant-zero stream. -/
def pgDefaultOut : PasswordGenerator :=
  { PasswordGenerator.defaultPG with generated_password := List.replicate 12 'A' }

/-- Default settings with `length` at the floor 1 and `quantity = 5`. -/
def pgLenFloor : PasswordGenerator :=
  { PasswordGenerator.defaultPG with length := 1, quantity := 5 }

/-- Default settings with `length = 7` and `quantity` at the floor 1. -/
def pgQtyFloor : PasswordGenerator :=
  { PasswordGenerator.defaultPG with length := 7 }

/-! ## Helper lemmas about the rejection-sampling machinery -/

theorem drawChar_mem (cs : List Char) (d : Nat → Nat) (k : Nat)
    (h : 0 < cs.length) : drawChar cs d k ∈ cs := by
  have hlt : d k % cs.length < cs.length := Nat.mod_lt _ h
  unfold drawChar
  rw [List.getD_eq_getElem cs ' ' hlt]
  exact List.getElem_mem hlt

theorem rejectLoop_post (cs : List Char) (p : Char → Bool) (d : Nat → Nat)
    (fuel : Nat) :
    ∀ (c : Char) (k : Nat) (c1 : Char) (k1 : Nat),
      rejectLoop cs p d fuel c k = some (c1, k1) → p c1 = false := by
  induction fuel with
  | zero =>
    intro c k c1 k1 h
    rw [rejectLoop] at h
    by_cases hp : p c
    · rw [if_pos hp] at h; exact absurd h (by simp)
    · rw [if_neg hp] at h
      have hc : c = c1 := congrArg Prod.fst (Option.some.inj h)
      subst hc
      simpa using hp
  | succ fuel ih =>
    intro c k c1 k1 h
    rw [rejectLoop] at h
    by_cases hp : p c
    · rw [if_pos hp] at h
      exact ih _ _ _ _ h
    · rw [if_neg hp] at h
      have hc : c = c1 := congrArg Prod.fst (Option.some.inj h)
      subst hc
      simpa using hp

theorem rejectLoop_mem (cs : List Char) (p : Char → Bool) (d : Nat → Nat)
    (fuel : Nat) :
    ∀ (c : Char) (k : Nat) (c1 : Char) (k1 : Nat), 0 < cs.length → c ∈ cs →
      rejectLoop cs p d fuel c k = some (c1, k1) → c1 ∈ cs := by
  induction fuel with
  | zero =>
    intro c k c1 k1 _ hc h
    rw [rejectLoop] at h
    by_cases hp : p c
    · rw [if_pos hp] at h; exact absurd h (by simp)
    · rw [if_neg hp] at h
      have he : c = c1 := congrArg Prod.fst (Option.some.inj h)
      exact he ▸ hc
  | succ fuel ih =>
    intro c k c1 k1 hcs hc h
    rw [rejectLoop] at h
    by_cases hp : p c
    · rw [if_pos hp] at h
      exact ih _ _ _ _ hcs (drawChar_mem cs d k hcs) h
    · rw [if_neg hp] at h
      have he : c = c1 := congrArg Prod.fst (Option.some.inj h)
      exact he ▸ hc

theorem rejectLoop_none (cs : List Char) (p : Char → Bool) (d : Nat → Nat)
    (fuel : Nat) :
    ∀ (c : Char) (k : Nat), p c = true →
      (∀ j, p (drawChar cs d j) = true) →
      rejectLoop cs p d fuel c k = none := by
  induction fuel with
  | zero =>
    intro c k hc _
    rw [rejectLoop, if_pos hc]
  | succ fuel ih =>
    intro c k hc hall
    rw [rejectLoop, if_pos hc]
    exact ih _ _ (hall k) hall

theorem stageDup_mem (pg : PasswordGenerator) (cs old : List Char)
    (d : Nat → Nat) (fuel : Nat) (c : Char) (k : Nat) (c1 : Char) (k1 : Nat)
    (hcs : 0 < cs.length) (hc : c ∈ cs)
    (h : stageDup pg cs old d fuel c k = some (c1, k1)) : c1 ∈ cs := by
  unfold stageDup at h
  by_cases hb : pg.use_duplicate_characters
  · rw [if_pos hb] at h
    have he : c = c1 := congrArg Prod.fst (Option.some.inj h)
    exact he ▸ hc
  · rw [if_neg hb] at h
    exact rejectLoop_mem cs _ d fuel c k c1 k1 hcs hc h

theorem stageSeq_mem (pg : PasswordGenerator) (cs old : List Char)
    (d : Nat → Nat) (fuel : Nat) (c : Char) (k : Nat) (c1 : Char) (k1 : Nat)
    (hcs : 0 < cs.length) (hc : c ∈ cs)
    (h : stageSeq pg cs old d fuel c k = some (c1, k1)) : c1 ∈ cs := by
  unfold stageSeq at h
  by_cases hb : pg.use_sequential_characters || old.isEmpty
  · rw [if_pos hb] at h
    have he : c = c1 := congrArg Prod.fst (Option.some.inj h)
    exact he ▸ hc
  · rw [if_neg hb] at h
    exact rejectLoop_mem cs _ d fuel c k c1 k1 hcs hc h

theorem stageSim_mem (pg : PasswordGenerator) (cs : List Char)
    (d : Nat → Nat) (fuel : Nat) (c : Char) (k : Nat) (c1 : Char) (k1 : Nat)
    (hcs : 0 < cs.length) (hc : c ∈ cs)
    (h : stageSim pg cs d fuel c k = some (c1, k1)) : c1 ∈ cs := by
  unfold stageSim at h
  by_cases hb : pg.use_similar_characters
  · rw [if_pos hb] at h
    have he : c = c1 := congrArg Prod.fst (Option.some.inj h)
    exact he ▸ hc
  · rw [if_neg hb] at h
    exact rejectLoop_mem cs _ d fuel c k c1 k1 hcs hc h

theorem stageSim_post (pg : PasswordGenerator) (cs : List Char)
    (d : Nat → Nat) (fuel : Nat) (c : Char) (k : Nat) (c1 : Char) (k1 : Nat)
    (hb : pg.use_similar_characters = false)
    (h : stageSim pg cs d fuel c k = some (c1, k1)) :
    pg.similar_characters.contains c1 = false := by
  unfold stageSim at h
  rw [hb] at h
  simp only [Bool.false_eq_true, if_false] at h
  exact rejectLoop_post cs _ d fuel c k c1 k1 h

theorem pickChar_mem (pg : PasswordGenerator) (cs old : List Char)
    (d : Nat → Nat) (fuel k : Nat) (c : Char) (k1 : Nat)
    (hcs : 0 < cs.length)
    (h : pickChar pg cs old d fuel k = some (c, k1)) : c ∈ cs := by
  unfold pickChar at h
  rw [Option.bind_eq_some] at h
  obtain ⟨r1, h1, h⟩ := h
  rw [Option.bind_eq_some] at h
  obtain ⟨r2, h2, h3⟩ := h
  have hm1 : r1.1 ∈ cs :=
    stageDup_mem pg cs old d fuel _ _ _ _ hcs (drawChar_mem cs d k hcs) h1
  have hm2 : r2.1 ∈ cs := stageSeq_mem pg cs old d fuel _ _ _ _ hcs hm1 h2
  exact stageSim_mem pg cs d fuel _ _ _ _ hcs hm2 h3

theorem pickChar_noSimilar (pg : PasswordGenerator) (cs old : List Char)
    (d : Nat → Nat) (fuel k : Nat) (c : Char) (k1 : Nat)
    (hb : pg.use_similar_characters = false)
    (h : pickChar pg cs old d fuel k = some (c, k1)) :
    pg.similar_characters.contains c = false := by
  unfold pickChar at h
  rw [Option.bind_eq_some] at h
  obtain ⟨r1, _, h⟩ := h
  rw [Option.bind_eq_some] at h
  obtain ⟨r2, _, h3⟩ := h
  exact stageSim_post pg cs d fuel _ _ _ _ hb h3

theorem genChars_spec (pg : PasswordGenerator) (cs old : List Char)
    (d : Nat → Nat) (fuel : Nat) (hcs : 0 < cs.length) :
    ∀ (m k : Nat) (s : List Char) (k1 : Nat),
      genChars pg cs old d fuel m k = some (s, k1) →
      s.length = m ∧ ∀ c ∈ s, c ∈ cs := by
  intro m
  induction m with
  | zero =>
    intro k s k1 h
    rw [genChars] at h
    have he : ([] : List Char) = s := congrArg Prod.fst (Option.some.inj h)
    subst he
    exact ⟨rfl, by simp⟩
  | succ m ih =>
    intro k s k1 h
    rw [genChars, Option.bind_eq_some] at h
    obtain ⟨⟨c, k2⟩, hp, h⟩ := h
    rw [Option.bind_eq_some] at h
    obtain ⟨⟨s2, k3⟩, hg, h⟩ := h
    have he : c :: s2 = s := congrArg Prod.fst (Option.some.inj h)
    subst he
    obtain ⟨hlen, hmem⟩ := ih k2 s2 k3 hg
    refine ⟨by simp [hlen], ?_⟩
    intro x hx
    rcases List.mem_cons.mp hx with hx | hx
    · exact hx ▸ pickChar_mem pg cs old d fuel k c k2 hcs hp
    · exact hmem x hx

theorem genChars_noSimilar (pg : PasswordGenerator) (cs old : List Char)
    (d : Nat → Nat) (fuel : Nat) (hb : pg.use_similar_characters = false) :
    ∀ (m k : Nat) (s : List Char) (k1 : Nat),
      genChars pg cs old d fuel m k = some (s, k1) →
      ∀ c ∈ s, pg.similar_characters.contains c = false := by
  intro m
  induction m with
  | zero =>
    intro k s k1 h
    rw [genChars] at h
    have he : ([] : List Char) = s := congrArg Prod.fst (Option.some.inj h)
    subst he
    simp
  | succ m ih =>
    intro k s k1 h
    rw [genChars, Option.bind_eq_some] at h
    obtain ⟨⟨c, k2⟩, hp, h⟩ := h
    rw [Option.bind_eq_some] at h
    obtain ⟨⟨s2, k3⟩, hg, h⟩ := h
    have he : c :: s2 = s := congrArg Prod.fst (Option.some.inj h)
    subst he
    intro x hx
    rcases List.mem_cons.mp hx with hx | hx
    · exact hx ▸ pickChar_noSimilar pg cs old d fuel k c k2 hb hp
    · exact ih k2 s2 k3 hg x hx

theorem genChars_none_of_pick_none (pg : PasswordGenerator)
    (cs old : List Char) (d : Nat → Nat) (fuel : Nat)
    (hp : ∀ k, pickChar pg cs old d fuel k = none) :
    ∀ (m k : Nat), 0 < m → genChars pg cs old d fuel m k = none := by
  intro m k hm
  cases m with
  | zero => exact absurd hm (by simp)
  | succ m => rw [genChars, hp k]; rfl

/-! ## Claim theorems -/

/-- Claim C4: whenever `generate_password` returns successfully, the stored
`generated_password` has exactly `length` characters and every one of them
is a member of the charset built from the enabled character classes. -/
theorem C4_length_and_charset (pg : PasswordGenerator) (d : Nat → Nat)
    (fuel k : Nat) (pg1 : PasswordGenerator) (u : Unit) (k1 : Nat)
    (h : generate_password pg d fuel k = some (pg1, Except.ok u, k1)) :
    pg1.generated_password.length = pg.length ∧ allInCharset pg pg1 = true := by
  simp only [generate_password] at h
  by_cases he : (buildCharset pg).isEmpty
  · rw [if_pos he] at h
    have := congrArg (fun t => t.2.1) (Option.some.inj h)
    exact absurd this (by simp)
  · rw [if_neg he] at h
    rw [Option.map_eq_some'] at h
    obtain ⟨⟨s, k2⟩, hg, hr⟩ := h
    have hcs : 0 < (buildCharset pg).length := by
      cases hc : buildCharset pg with
      | nil => rw [hc] at he; exact absurd rfl he
      | cons a t => simp
    obtain ⟨hlen, hmem⟩ :=
      genChars_spec pg (buildCharset pg) pg.generated_password d fuel hcs
        pg.length k s k2 hg
    have hpg : ({ pg with generated_password := s } : PasswordGenerator) = pg1 :=
      congrArg Prod.fst hr
    rw [← hpg]
    refine ⟨hlen, ?_⟩
    unfold allInCharset
    rw [List.all_eq_true]
    intro c hc
    exact List.elem_eq_true_of_mem (hmem c hc)

/-- Witness for C4: the default settings under the constant-zero stream
generate a 12-character password drawn from the default charset. -/
theorem C4_witness :
    generate_password PasswordGenerator.defaultPG dZero 5 0 =
      some (pgDefaultOut, Except.ok (), 12) ∧
    (pgDefaultOut.generated_password.length = PasswordGenerator.defaultPG.length ∧
      allInCharset PasswordGenerator.defaultPG pgDefaultOut = true) :=
  ⟨rfl, C4_length_and_charset PasswordGenerator.defaultPG dZero 5 0
    pgDefaultOut () 12 rfl⟩

/-- Claim C6: with every character-class toggle disabled,
`generate_password` returns the empty-charset error value (the
`Err("Charset is empty")` of the source), leaving the state unchanged —
never a success and never a panic. -/
theorem C6_empty_alphabet (pg : PasswordGenerator) (d : Nat → Nat)
    (fuel k : Nat) (hu : pg.use_uppercase = false)
    (hl : pg.use_lowercase = false) (hn : pg.use_numbers = false)
    (hs : pg.use_symbols = false) :
    generate_password pg d fuel k =
      some (pg, Except.error "Charset is empty", k) := by
  have hcs : buildCharset pg = [] := by
    simp [buildCharset, hu, hl, hn, hs]
  simp [generate_password, hcs]

/-- Witness for C6: the all-classes-off state. -/
theorem C6_witness :
    (pgAllOff.use_uppercase = false ∧ pgAllOff.use_lowercase = false ∧
      pgAllOff.use_numbers = false ∧ pgAllOff.use_symbols = false) ∧
    generate_password pgAllOff dZero 0 0 =
      some (pgAllOff, Except.error "Charset is empty", 0) :=
  ⟨⟨rfl, rfl, rfl, rfl⟩, C6_empty_alphabet pgAllOff dZero 0 0 rfl rfl rfl rfl⟩

/-- Claim C9: for every state, `decrease_length` at `length = 1` leaves
the state fixed (so `length` stays 1 and the decrement is idempotent at
the floor), and, independently, `decrease_quantity` at `quantity = 1`
leaves the state fixed likewise. -/
theorem C9_decrement_floor (pg : PasswordGenerator) :
    (pg.length = 1 → decrease_length pg = pg) ∧
    (pg.quantity = 1 → decrease_quantity pg = pg) := by
  obtain ⟨len, u, lo, nu, sy, sim, dup, seq, sc, gp, q, msg⟩ := pg
  constructor
  · intro hl
    simp only at hl
    subst hl
    simp [decrease_length]
  · intro hq
    simp only at hq
    subst hq
    simp [decrease_quantity]

/-- Witness for C9, discharging each hypothesis at its own state: a state
with `length = 1` but `quantity = 5`, and a state with `quantity = 1` but
`length = 7`. -/
theorem C9_witness :
    (pgLenFloor.length = 1 ∧ decrease_length pgLenFloor = pgLenFloor) ∧
    (pgQtyFloor.quantity = 1 ∧ decrease_quantity pgQtyFloor = pgQtyFloor) :=
  ⟨⟨rfl, (C9_decrement_floor pgLenFloor).1 rfl⟩,
   ⟨rfl, (C9_decrement_floor pgQtyFloor).2 rfl⟩⟩

/-- Claim C10: whenever `generate_password` returns an error, the whole
state (stored password and every settings field) is exactly as before the
call: the empty-charset check precedes any mutation. -/
theorem C10_error_preserves_state (pg : PasswordGenerator) (d : Nat → Nat)
    (fuel k : Nat) (pg1 : PasswordGenerator) (e : String) (k1 : Nat)
    (h : generate_password pg d fuel k = some (pg1, Except.error e, k1)) :
    pg1 = pg := by
  simp only [generate_password] at h
  by_cases he : (buildCharset pg).isEmpty
  · rw [if_pos he] at h
    exact (congrArg Prod.fst (Option.some.inj h)).symm
  · rw [if_neg he] at h
    rw [Option.map_eq_some'] at h
    obtain ⟨⟨s, k2⟩, _, hr⟩ := h
    have := congrArg (fun t => t.2.1) hr
    exact absurd this (by simp)

/-- Witness for C10: the all-classes-off state errors and is returned
unchanged. -/
theorem C10_witness :
    generate_password pgAllOff dId 0 0 =
      some (pgAllOff, Except.error "Charset is empty", 0) ∧
    pgAllOff = pgAllOff :=
  ⟨rfl, C10_error_preserves_state pgAllOff dId 0 0 pgAllOff
    "Charset is empty" 0 rfl⟩

/-- Claim C1 (code bug): in the §8 scenario — only numbers enabled,
`length = 20`, duplicates disallowed — with the previously stored password
holding all eight usable digits, `generate_password` never returns: for
every draw stream and every bound `fuel` on the number of re-draws the
model yields `none` (the source's `while` loop re-draws forever; there is
no retry ceiling and no `Unsatisfiable` error anywhere in the code). -/
theorem C1_unbounded_rejection_diverges (d : Nat → Nat) (fuel k : Nat) :
    generate_password pgC1 d fuel k = none := by
  have hlen : 0 < numberChars.length := by decide
  have hall : ∀ j, numberChars.contains (drawChar numberChars d j) = true :=
    fun j => List.elem_eq_true_of_mem (drawChar_mem numberChars d j hlen)
  have hpick : ∀ j, pickChar pgC1 numberChars pgC1.generated_password d fuel j
      = none := by
    intro j
    have hrej : rejectLoop numberChars
        (fun x => pgC1.generated_password.contains x) d fuel
        (drawChar numberChars d j) (j + 1) = none := by
      apply rejectLoop_none
      · exact hall j
      · intro i; exact hall i
    have hsd : stageDup pgC1 numberChars pgC1.generated_password d fuel
        (drawChar numberChars d j) (j + 1) = none := by
      unfold stageDup
      rw [show pgC1.use_duplicate_characters = false from rfl]
      simpa using hrej
    unfold pickChar
    rw [hsd]
    rfl
  have hg : genChars pgC1 numberChars pgC1.generated_password d fuel
      pgC1.length k = none :=
    genChars_none_of_pick_none pgC1 numberChars pgC1.generated_password d fuel
      hpick pgC1.length k (by decide)
  simp only [generate_password]
  rw [show buildCharset pgC1 = numberChars from rfl, hg]
  rfl

/-- Claim C2 (code bug): with duplicates disallowed, a successful
`generate_password` run can still repeat a character.  From a cleared
state with `length = 2` and the constant-zero stream the call returns
`Ok` with password "AA": the `contains` check of the source inspects the
previously stored password (the assignment to `self.generated_password`
happens only after `collect()`), so it never sees the password being
built. -/
theorem C2_duplicate_violation :
    pgLen2.use_duplicate_characters = false ∧
    generate_password pgLen2 dZero 5 0 =
      some ({ pgLen2 with generated_password := ['A', 'A'] },
        Except.ok (), 2) ∧
    ¬ (['A', 'A'] : List Char).Nodup :=
  ⟨rfl, rfl, by decide⟩

/-- Claim C3 (code bug): with sequential characters disallowed, a
successful `generate_password` run can still place two consecutive code
points next to each other.  From a cleared state with `length = 2` and
the identity stream the call returns `Ok` with password "AB"
(`'B' = 'A' + 1`): the sequential check reads the last character of the
previously stored password, which is empty, so the check is skipped for
every position. -/
theorem C3_sequential_violation :
    pgLen2.use_sequential_characters = false ∧
    generate_password pgLen2 dId 5 0 =
      some ({ pgLen2 with generated_password := ['A', 'B'] },
        Except.ok (), 2) ∧
    'B'.toNat = 'A'.toNat + 1 :=
  ⟨rfl, rfl, by decide⟩

/-- Claim C5, counterexample: with the default settings similar-looking
characters are NOT eligible: the default flag `use_similar_characters` is
`false`, which in the source *activates* the per-draw similar filter, and
the class strings themselves already omit 'o' (a similar-set member), so
the default alphabet is reduced — contradicting the claim that exclusion
is opt-in only and not via a reduced default alphabet. -/
theorem C5_counterexample :
    PasswordGenerator.defaultPG.use_similar_characters = false ∧
    (buildCharset PasswordGenerator.defaultPG).contains 'o' = false ∧
    PasswordGenerator.defaultPG.similar_characters.contains 'o' = true :=
  ⟨rfl, by decide, rfl⟩

/-- Claim C5, amended: under the default settings no member of the
similar set can occur in a successfully generated password — exclusion is
the default (it is active exactly when `use_similar_characters` is
`false`), not opt-in. -/
theorem C5_default_excludes_similar (d : Nat → Nat) (fuel k : Nat)
    (pg1 : PasswordGenerator) (u : Unit) (k1 : Nat)
    (h : generate_password PasswordGenerator.defaultPG d fuel k =
      some (pg1, Except.ok u, k1)) :
    noSimilarIn PasswordGenerator.defaultPG pg1 = true := by
  simp only [generate_password] at h
  rw [if_neg (by decide :
    ¬ (buildCharset PasswordGenerator.defaultPG).isEmpty = true)] at h
  rw [Option.map_eq_some'] at h
  obtain ⟨⟨s, k2⟩, hg, hr⟩ := h
  have hall := genChars_noSimilar PasswordGenerator.defaultPG
    (buildCharset PasswordGenerator.defaultPG)
    PasswordGenerator.defaultPG.generated_password d fuel rfl
    PasswordGenerator.defaultPG.length k s k2 hg
  have hpg : ({ PasswordGenerator.defaultPG with generated_password := s } :
      PasswordGenerator) = pg1 := congrArg Prod.fst hr
  have hgp : pg1.generated_password = s := by rw [← hpg]
  unfold noSimilarIn
  rw [hgp, List.all_eq_true]
  intro c hc
  show (!(PasswordGenerator.defaultPG.similar_characters.contains c)) = true
  rw [hall c hc]
  rfl

/-- Witness for the amended C5: the default run under the constant-zero
stream succeeds and its output contains no similar character. -/
theorem C5_witness :
    generate_password PasswordGenerator.defaultPG dZero 5 0 =
      some (pgDefaultOut, Except.ok (), 12) ∧
    noSimilarIn PasswordGenerator.defaultPG pgDefaultOut = true :=
  ⟨rfl, C5_default_excludes_similar dZero 5 0 pgDefaultOut () 12 rfl⟩

/-- Claim C7 (code bug): `generate_multiple_passwords` with
`quantity = 1`, `length = 2`, duplicates disallowed, succeeds with the
single entry "AA\n": the element violates the no-duplicate constraint
(state is cleared before each run, so the constraint checks inspect the
cleared previous buffer and never the password being built) and carries a
trailing newline, so it does not even have `length` characters. -/
theorem C7_batch_violation :
    generate_multiple_passwords pgBatch dZero 5 0 =
      some ({ pgBatch with generated_password := ['A', 'A'] }, 2,
        Except.ok [['A', 'A', '\n']]) ∧
    ¬ (['A', 'A', '\n'] : List Char).Nodup ∧
    (['A', 'A', '\n'] : List Char).length ≠ pgBatch.length :=
  ⟨rfl, by decide, by decide⟩

/-- Claim C8, counterexample: with default settings (similar exclusion
active, since `use_similar_characters = false`), the built charset still
contains the similar-set member 'L' — nothing is ever removed from the
combined alphabet, so the charset is not the spec's
concatenate-then-remove alphabet. -/
theorem C8_counterexample :
    PasswordGenerator.defaultPG.use_similar_characters = false ∧
    PasswordGenerator.defaultPG.similar_characters.contains 'L' = true ∧
    (buildCharset PasswordGenerator.defaultPG).contains 'L' = true ∧
    buildCharset PasswordGenerator.defaultPG ≠
      charsetSpecC8 PasswordGenerator.defaultPG :=
  ⟨rfl, rfl, by decide, by decide⟩

/-- Claim C8, amended: the charset used for sampling equals exactly the
concatenation, in the fixed order uppercase, lowercase, numbers, symbols,
of the class strings of the enabled classes — with no similar-character
removal applied to it (similar characters are instead rejected draw by
draw). -/
theorem C8_charset_is_concat (pg : PasswordGenerator) :
    buildCharset pg = charsetConcat pg := by
  obtain ⟨len, u, lo, nu, sy, sim, dup, seq, sc, gp, q, msg⟩ := pg
  cases u <;> cases lo <;> cases nu <;> cases sy <;> rfl

end Utilix
